import Mathlib

/-!
Verification of the sink subsystem of spdlog-rs (`src/sink/mod.rs`).

The repository's visible source is the `Sink` trait, whose provided
default methods `should_log` and `set_formatter` are embedded verbatim
below as functions over an abstract implementation (`SinkOps`).  The
collaborating types (`Level`, `LevelFilter`) and the concrete sinks
(`RotatingFileSink` with its `RotationPolicy`) live in modules that are
not part of the visible source; they are modelled from the spec, each
such definition carrying a doc comment that says so.
-/

namespace SpdlogRs

/-- Modelled from the spec (the `Level` type is not under the visible
source): a totally ordered enumeration of severities,
`Trace < Debug < Info < Warn < Error < Critical`, compared by ordinal. -/
inductive Level where
  | Trace
  | Debug
  | Info
  | Warn
  | Error
  | Critical
deriving DecidableEq, Repr

/-- Ordinal of a severity level, following the spec's order. -/
def Level.toOrdinal : Level → Nat
  | .Trace => 0
  | .Debug => 1
  | .Info => 2
  | .Warn => 3
  | .Error => 4
  | .Critical => 5

/-- Modelled from the spec (the `LevelFilter` type is not under the
visible source): a predicate over `Level` — "at least X", "exactly X",
"off", "all". -/
inductive LevelFilter where
  | All
  | Off
  | MoreSevereEqual (l : Level)
  | Equal (l : Level)
deriving DecidableEq, Repr

/-- Modelled from the spec: `LevelFilter.compare` decides whether a
record at the given level passes the filter. -/
def LevelFilter.compare : LevelFilter → Level → Bool
  | .All, _ => true
  | .Off, _ => false
  | .MoreSevereEqual x, l => x.toOrdinal ≤ l.toOrdinal
  | .Equal x, l => x == l

/-- The primitive (required) operations of the `Sink` trait
(`src/sink/mod.rs`), for an implementation with state type `S` and
formatter type `F`.  `level_filter`, `set_level_filter` and
`swap_formatter` are the trait's required configuration methods; the
effectful members `log`/`flush` are target-specific and are modelled
separately for the rotating file sink below. -/
structure SinkOps (S F : Type) where
  level_filter : S → LevelFilter
  set_level_filter : S → LevelFilter → S
  swap_formatter : S → F → F × S

/-- The trait's provided default method, embedded from
`src/sink/mod.rs` lines 28–30:
`fn should_log(&self, level: Level) -> bool { self.level_filter().compare(level) }`. -/
def Sink.should_log {S F : Type} (ops : SinkOps S F) (s : S) (level : Level) : Bool :=
  (ops.level_filter s).compare level

/-- The trait's provided default method, embedded from
`src/sink/mod.rs` lines 54–56:
`fn set_formatter(&self, formatter: ...) { self.swap_formatter(formatter); }`
— the swap with the returned previous formatter discarded. -/
def Sink.set_formatter {S F : Type} (ops : SinkOps S F) (s : S) (formatter : F) : S :=
  (ops.swap_formatter s formatter).2

/-- Modelled from the spec (the concrete sinks are not under the visible
source): the per-sink configuration state every sink owns — its own
private `LevelFilter` and its own owned, swappable formatter. -/
structure BaseSink (F : Type) where
  levelFilter : LevelFilter
  formatter : F
deriving DecidableEq, Repr

/-- Modelled from the spec: atomic read of the sink's filter. -/
def BaseSink.level_filter {F : Type} (s : BaseSink F) : LevelFilter :=
  s.levelFilter

/-- Modelled from the spec: atomic write of the sink's filter,
effective for subsequent calls. -/
def BaseSink.set_level_filter {F : Type} (s : BaseSink F) (f : LevelFilter) : BaseSink F :=
  { s with levelFilter := f }

/-- Modelled from the spec: atomically replaces the sink's formatter and
returns the previous one. -/
def BaseSink.swap_formatter {F : Type} (s : BaseSink F) (f : F) : F × BaseSink F :=
  (s.formatter, { s with formatter := f })

/-- The `SinkOps` record of the modelled base sink. -/
def baseSinkOps (F : Type) : SinkOps (BaseSink F) F :=
  { level_filter := BaseSink.level_filter
    set_level_filter := BaseSink.set_level_filter
    swap_formatter := BaseSink.swap_formatter }

/-- Modelled from the spec (the `RotationPolicy` implementation is not
under the visible source): size-based policy —
`should_rotate(current_size_bytes, incoming_record_size_bytes)` is true
when `current_size_bytes + incoming_record_size_bytes > max_size`. -/
def RotationPolicy.should_rotate_size (max_size current_size incoming : Nat) : Bool :=
  decide (max_size < current_size + incoming)

/-- The files produced by a run of the size-rotating sink: the records
(by formatted byte size) in the current file, and the rotated-away
closed files, oldest first. -/
structure RotFiles where
  curFile : List Nat
  closedFiles : List (List Nat)
deriving DecidableEq, Repr

/-- Modelled from the spec (§4.3): one `log` step of the size-rotating
sink with all I/O succeeding — consult the policy with the current file
size and the incoming record; on rotate, close the current file and
write the record whole to the fresh file; otherwise append it whole to
the current file. -/
def rotStep (max_size : Nat) (st : RotFiles) (n : Nat) : RotFiles :=
  if RotationPolicy.should_rotate_size max_size st.curFile.sum n then
    { curFile := [n], closedFiles := st.closedFiles ++ [st.curFile] }
  else
    { curFile := st.curFile ++ [n], closedFiles := st.closedFiles }

/-- A run of the size-rotating sink over a sequence of record sizes,
starting from a fresh empty file. -/
def rotRun (max_size : Nat) (records : List Nat) : RotFiles :=
  records.foldl (rotStep max_size) { curFile := [], closedFiles := [] }

/-- All records ever written in a run, across all rotated files combined. -/
def RotFiles.allRecords (st : RotFiles) : List Nat :=
  st.closedFiles.flatten ++ st.curFile

/-- Modelled from the spec: the next scheduled boundary after time `t`
for a policy that rotates every `period` ticks (boundaries at the
multiples of `period`). -/
def nextBoundary (period t : Nat) : Nat :=
  (t / period + 1) * period

/-- Modelled from the spec (the `RotationPolicy` implementation is not
under the visible source): time-based policy —
`should_rotate(current_file_open_time, now)` is true when `now` has
crossed the next scheduled boundary since the file was opened. -/
def RotationPolicy.should_rotate_time (period open_time now : Nat) : Bool :=
  decide (nextBoundary period open_time ≤ now)

/-- State of a time-rotating sink run: the open time of the current file
and how many rotations have occurred. -/
structure TimeSinkState where
  openTime : Nat
  rotations : Nat
deriving DecidableEq, Repr

/-- Modelled from the spec (§4.3): one `log` step of the time-rotating
sink — consult the policy with the current file's open time and the
record's time; on rotate, open a fresh file stamped with the record's
time. -/
def timeStep (period : Nat) (st : TimeSinkState) (t : Nat) : TimeSinkState :=
  if RotationPolicy.should_rotate_time period st.openTime t then
    { openTime := t, rotations := st.rotations + 1 }
  else
    st

/-- A run of the time-rotating sink over a sequence of record times,
with the current file opened at `open_time`. -/
def timeRun (period open_time : Nat) (times : List Nat) : TimeSinkState :=
  times.foldl (timeStep period) { openTime := open_time, rotations := 0 }

/-- The only error kind originating in this core (spec §7): `Io`. -/
inductive ErrorKind where
  | Io
deriving DecidableEq, Repr

/-- One immutable log event as the sink sees it: its level and the byte
size of its formatted representation. -/
structure Record where
  level : Level
  size : Nat
deriving DecidableEq, Repr

/-- The file handle owned by a rotating file sink: `closed` (no file
open) or `opened` with the current byte count. -/
inductive FileHandle where
  | closed
  | opened (size : Nat)
deriving DecidableEq, Repr

/-- Modelled from the spec (the `RotatingFileSink` implementation is not
under the visible source): its internal state — its own level filter,
the size threshold of its rotation policy, and the current file handle. -/
structure RotatingFileSink where
  levelFilter : LevelFilter
  max_size : Nat
  file : FileHandle
deriving DecidableEq, Repr

/-- Outcome of the fallible I/O operations the environment performs for
one `log` call: whether opening a file would succeed now, and whether
writing would succeed now. -/
structure IoEnv where
  openOk : Bool
  writeOk : Bool
deriving DecidableEq, Repr

/-- Result of one `log` call: the sink's state afterwards and the
returned `Result` (`none` for `Ok(())`, `some k` for an error of kind `k`). -/
structure LogOutcome where
  sink : RotatingFileSink
  result : Option ErrorKind
deriving DecidableEq, Repr

/-- Modelled from the spec (§4.3 transition `Open --log--> Open|Rotating→Open`
and §7): `RotatingFileSink::log`.  With no file open it first opens one;
with a file open it consults the size policy and rotates when signaled
(close the current file, open the new one).  A failed open leaves the
sink in the recoverable `Closed` state and fails the call with an `Io`
error, buffering nothing; a failed write fails the call with an `Io`
error and buffers nothing.  The record is written whole to the
(possibly fresh) current file.  A total function: every call returns an
outcome, never a panic. -/
def RotatingFileSink.log (s : RotatingFileSink) (env : IoEnv) (r : Record) : LogOutcome :=
  match s.file with
  | .closed =>
      if env.openOk then
        if env.writeOk then
          { sink := { s with file := .opened r.size }, result := none }
        else
          { sink := { s with file := .opened 0 }, result := some .Io }
      else
        { sink := { s with file := .closed }, result := some .Io }
  | .opened sz =>
      if RotationPolicy.should_rotate_size s.max_size sz r.size then
        if env.openOk then
          if env.writeOk then
            { sink := { s with file := .opened r.size }, result := none }
          else
            { sink := { s with file := .opened 0 }, result := some .Io }
        else
          { sink := { s with file := .closed }, result := some .Io }
      else
        if env.writeOk then
          { sink := { s with file := .opened (sz + r.size) }, result := none }
        else
          { sink := { s with file := .opened sz }, result := some .Io }

/-! ## Helper lemmas -/

/-- One rotating-sink step appends the record whole to the run's total
output, whether or not it rotates. -/
theorem rotStep_allRecords (max_size : Nat) (st : RotFiles) (n : Nat) :
    (rotStep max_size st n).allRecords = st.allRecords ++ [n] := by
  unfold rotStep RotFiles.allRecords
  split <;> simp

/-- A rotating-sink run from any state appends exactly the input records
to the total output: no record is lost or duplicated. -/
theorem foldl_rotStep_allRecords (max_size : Nat) (records : List Nat) (st : RotFiles) :
    (records.foldl (rotStep max_size) st).allRecords = st.allRecords ++ records := by
  induction records generalizing st with
  | nil => simp [List.foldl]
  | cons n rest ih =>
      simp only [List.foldl]
      rw [ih, rotStep_allRecords]
      simp

/-- While the current file's size plus all remaining records stays within
the threshold, the rotating-sink run rotates nothing and simply appends. -/
theorem foldl_rotStep_no_rotation (max_size : Nat) (records : List Nat) (st : RotFiles)
    (h : st.curFile.sum + records.sum ≤ max_size) :
    records.foldl (rotStep max_size) st =
      { curFile := st.curFile ++ records, closedFiles := st.closedFiles } := by
  induction records generalizing st with
  | nil => simp [List.foldl]
  | cons n rest ih =>
      simp only [List.foldl]
      have hno : RotationPolicy.should_rotate_size max_size st.curFile.sum n = false := by
        simp only [RotationPolicy.should_rotate_size, decide_eq_false_iff_not, not_lt]
        calc st.curFile.sum + n ≤ st.curFile.sum + (n + rest.sum) := by
              simp [Nat.add_le_add_iff_left]
            _ ≤ max_size := by simpa [List.sum_cons] using h
      rw [show rotStep max_size st n =
            { curFile := st.curFile ++ [n], closedFiles := st.closedFiles } by
          simp [rotStep, hno]]
      rw [ih]
      · simp
      · simp only [List.sum_append, List.sum_cons, List.sum_nil]
        simpa [Nat.add_assoc] using h

/-- With a positive period, the time policy signals rotation exactly when
the record's time falls in a strictly later window than the file's open
time. -/
theorem should_rotate_time_iff (period a b : Nat) (hp : 0 < period) :
    RotationPolicy.should_rotate_time period a b = true ↔ a / period < b / period := by
  simp only [RotationPolicy.should_rotate_time, nextBoundary, decide_eq_true_eq]
  rw [Nat.lt_iff_add_one_le, Nat.le_div_iff_mul_le hp]

/-- A run of the time-rotating sink over records that all lie in the
current file's window rotates nothing and keeps its state. -/
theorem foldl_timeStep_same_window (period t0 r : Nat) (times : List Nat)
    (hp : 0 < period) (hall : ∀ t ∈ times, t / period = t0 / period) :
    times.foldl (timeStep period) { openTime := t0, rotations := r } =
      { openTime := t0, rotations := r } := by
  induction times with
  | nil => simp [List.foldl]
  | cons t rest ih =>
      simp only [List.foldl]
      have hno : RotationPolicy.should_rotate_time period t0 t = false := by
        rw [Bool.eq_false_iff]
        intro hcontra
        have := (should_rotate_time_iff period t0 t hp).mp hcontra
        rw [hall t (by simp)] at this
        exact lt_irrefl _ this
      rw [show timeStep period { openTime := t0, rotations := r } t =
            { openTime := t0, rotations := r } by simp [timeStep, hno]]
      exact ih (fun u hu => hall u (by simp [hu]))

/-! ## Claim theorems -/

/-- Claim C1: for every sink and every level, the trait's provided
default `should_log(level)` returns exactly `level_filter().compare(level)`
— definitionally, for every implementation `ops` of the trait's
primitive operations. -/
theorem should_log_is_level_filter_compare (S F : Type) (ops : SinkOps S F)
    (s : S) (level : Level) :
    Sink.should_log ops s level = (ops.level_filter s).compare level :=
  rfl

/-- Claim C5: `set_formatter(f)` performs exactly the state change of
`swap_formatter(f)` with the returned previous formatter discarded — for
every implementation of the trait's primitives, and in particular for the
modelled base sink, after either call the installed formatter is `f`. -/
theorem set_formatter_eq_swap_discarding (S F : Type) (ops : SinkOps S F)
    (s : S) (f : F) (b : BaseSink F) :
    Sink.set_formatter ops s f = (ops.swap_formatter s f).2 ∧
    (Sink.set_formatter (baseSinkOps F) b f).formatter = f ∧
    Sink.set_formatter (baseSinkOps F) b f = (BaseSink.swap_formatter b f).2 :=
  ⟨rfl, rfl, rfl⟩

/-- Claim C7: after `set_level_filter(F)`, `level_filter()` returns `F`
and every subsequent `should_log(L)` evaluates to `F.compare(L)`; the
result of a `should_log` evaluated against the previous state is
unaffected (it is still the old filter's verdict). -/
theorem set_level_filter_governs_subsequent_should_log (F : Type)
    (b : BaseSink F) (f : LevelFilter) (l : Level) :
    BaseSink.level_filter (BaseSink.set_level_filter b f) = f ∧
    Sink.should_log (baseSinkOps F) (BaseSink.set_level_filter b f) l = f.compare l ∧
    Sink.should_log (baseSinkOps F) b l = b.levelFilter.compare l :=
  ⟨rfl, rfl, rfl⟩

/-- Claim C8: `swap_formatter(new)` returns the previously installed
formatter and installs `new`; swapping back the returned old formatter
returns `new` and restores the sink to its original state. -/
theorem swap_formatter_round_trip (F : Type) (b : BaseSink F) (new : F) :
    (BaseSink.swap_formatter b new).1 = b.formatter ∧
    (BaseSink.swap_formatter b new).2.formatter = new ∧
    (BaseSink.swap_formatter (BaseSink.swap_formatter b new).2 b.formatter).1 = new ∧
    (BaseSink.swap_formatter (BaseSink.swap_formatter b new).2 b.formatter).2 = b :=
  ⟨rfl, rfl, rfl, rfl⟩

/-- Claim C2: the size-based policy rotates exactly when
`current_size + incoming > max_size`; consequently a run whose records'
cumulative size stays within (in particular, reaches exactly) `max_size`
rotates nothing — all records land in the still-current first file. -/
theorem size_policy_rotates_iff_exceeds (max_size cur inc : Nat)
    (records : List Nat) (h : records.sum ≤ max_size) :
    (RotationPolicy.should_rotate_size max_size cur inc = true ↔ max_size < cur + inc) ∧
    (rotRun max_size records).closedFiles = [] ∧
    (rotRun max_size records).curFile = records := by
  have hrun : rotRun max_size records =
      { curFile := [] ++ records, closedFiles := [] } :=
    foldl_rotStep_no_rotation max_size records ⟨[], []⟩ (by simpa using h)
  exact ⟨by simp [RotationPolicy.should_rotate_size], by simp [hrun], by simp [hrun]⟩

theorem size_policy_rotates_iff_exceeds_witness :
    (RotationPolicy.should_rotate_size 10 4 8 = true ↔ 10 < 4 + 8) ∧
    (rotRun 10 [3, 7]).closedFiles = [] ∧
    (rotRun 10 [3, 7]).curFile = [3, 7] :=
  size_policy_rotates_iff_exceeds 10 4 8 [3, 7] (by decide)

/-- Claim C6: a record whose formatted size alone exceeds `max_size` is
still written whole — it is an element of the current file after its
step, the run's total output gains exactly that record (never split,
never dropped; in general a run loses and duplicates nothing), and the
policy signals rotation before whatever record comes next. -/
theorem oversized_record_written_whole (max_size n m : Nat) (st : RotFiles)
    (records : List Nat) (h : max_size < n) :
    n ∈ (rotStep max_size st n).curFile ∧
    (rotStep max_size st n).allRecords = st.allRecords ++ [n] ∧
    RotationPolicy.should_rotate_size max_size (rotStep max_size st n).curFile.sum m = true ∧
    (rotRun max_size records).allRecords = records := by
  have hrot : RotationPolicy.should_rotate_size max_size st.curFile.sum n = true := by
    simp only [RotationPolicy.should_rotate_size, decide_eq_true_eq]
    exact lt_of_lt_of_le h (Nat.le_add_left n _)
  have hstep : rotStep max_size st n =
      { curFile := [n], closedFiles := st.closedFiles ++ [st.curFile] } := by
    simp [rotStep, hrot]
  refine ⟨?_, rotStep_allRecords max_size st n, ?_, ?_⟩
  · rw [hstep]
    simp
  · rw [hstep]
    simp only [List.sum_cons, List.sum_nil, Nat.add_zero,
      RotationPolicy.should_rotate_size, decide_eq_true_eq]
    exact lt_of_lt_of_le h (Nat.le_add_right n m)
  · simpa using foldl_rotStep_allRecords max_size records ⟨[], []⟩

theorem oversized_record_written_whole_witness :
    9 ∈ (rotStep 5 ⟨[2], []⟩ 9).curFile ∧
    (rotStep 5 ⟨[2], []⟩ 9).allRecords = RotFiles.allRecords ⟨[2], []⟩ ++ [9] ∧
    RotationPolicy.should_rotate_size 5 (rotStep 5 ⟨[2], []⟩ 9).curFile.sum 1 = true ∧
    (rotRun 5 [1, 2]).allRecords = [1, 2] :=
  oversized_record_written_whole 5 9 1 ⟨[2], []⟩ [1, 2] (by decide)

/-- Claim C9: the time-based policy signals rotation exactly when the
record's time has crossed into a later window than the file's open time;
two records on opposite sides of a boundary cause exactly one rotation
between them, and a sequence of records all within the open file's
window causes zero rotations. -/
theorem time_policy_boundary_rotations (period t0 t1 t2 a b : Nat)
    (times : List Nat) (hp : 0 < period)
    (h01 : t0 / period = t1 / period) (h12 : t1 / period < t2 / period)
    (hall : ∀ t ∈ times, t / period = t0 / period) :
    (RotationPolicy.should_rotate_time period a b = true ↔ a / period < b / period) ∧
    (timeRun period t0 [t1, t2]).rotations = 1 ∧
    (timeRun period t0 times).rotations = 0 := by
  refine ⟨should_rotate_time_iff period a b hp, ?_, ?_⟩
  · have h1 : RotationPolicy.should_rotate_time period t0 t1 = false := by
      rw [Bool.eq_false_iff]
      intro hcontra
      have := (should_rotate_time_iff period t0 t1 hp).mp hcontra
      rw [h01] at this
      exact lt_irrefl _ this
    have h2 : RotationPolicy.should_rotate_time period t0 t2 = true :=
      (should_rotate_time_iff period t0 t2 hp).mpr (h01 ▸ h12)
    simp [timeRun, List.foldl, timeStep, h1, h2]
  · rw [timeRun, foldl_timeStep_same_window period t0 0 times hp hall]

theorem time_policy_boundary_rotations_witness :
    (RotationPolicy.should_rotate_time 24 0 30 = true ↔ 0 / 24 < 30 / 24) ∧
    (timeRun 24 1 [2, 25]).rotations = 1 ∧
    (timeRun 24 1 [3, 4]).rotations = 0 :=
  time_policy_boundary_rotations 24 1 2 25 0 30 [3, 4] (by decide) (by decide)
    (by decide) (by decide)

/-- Claim C4: the modelled rotating sink's `log` is a total function —
for every sink state, every I/O environment (including failing ones) and
every record (including records its filter would reject: the outcome is
independent of the installed level filter), the call returns either
`Ok(())` or an `Io`-kind error, never an unrecoverable fault; and with
all I/O succeeding it returns `Ok(())`. -/
theorem log_never_panics_reports_io (s : RotatingFileSink) (env : IoEnv)
    (r : Record) (f : LevelFilter) :
    ((s.log env r).result = none ∨ (s.log env r).result = some ErrorKind.Io) ∧
    (RotatingFileSink.log { s with levelFilter := f } env r).result = (s.log env r).result ∧
    (s.log { openOk := true, writeOk := true } r).result = none := by
  rcases s with ⟨lf, max_size, file⟩
  rcases env with ⟨o, w⟩
  refine ⟨?_, ?_, ?_⟩ <;>
    cases file <;> cases o <;> cases w <;>
      simp [RotatingFileSink.log] <;> split <;> simp_all

/-- Claim C3: if the policy signals rotation inside `log` and opening the
new file fails, that call returns an `Io` error and the sink's state is
exactly the original with its handle `Closed` — nothing buffered, no
half-open or double-open handle — and a next call under working I/O
succeeds, leaving a freshly opened file holding the new record. -/
theorem rotation_open_failure_recoverable (s : RotatingFileSink)
    (env env2 : IoEnv) (r r2 : Record) (sz : Nat)
    (hfile : s.file = .opened sz)
    (hrot : RotationPolicy.should_rotate_size s.max_size sz r.size = true)
    (hopen : env.openOk = false)
    (h2o : env2.openOk = true) (h2w : env2.writeOk = true) :
    (s.log env r).result = some ErrorKind.Io ∧
    (s.log env r).sink = { s with file := .closed } ∧
    ((s.log env r).sink.log env2 r2).result = none ∧
    ((s.log env r).sink.log env2 r2).sink = { s with file := .opened r2.size } := by
  have hstep : s.log env r =
      { sink := { s with file := .closed }, result := some ErrorKind.Io } := by
    rcases s with ⟨lf, max_size, file⟩
    simp only at hfile
    subst hfile
    simp [RotatingFileSink.log, hrot, hopen]
  refine ⟨by rw [hstep], by rw [hstep], ?_, ?_⟩ <;>
    · rw [hstep]
      simp [RotatingFileSink.log, h2o, h2w]

theorem rotation_open_failure_recoverable_witness :
    (RotatingFileSink.log ⟨.All, 10, .opened 8⟩ ⟨false, true⟩ ⟨.Info, 5⟩).result =
      some ErrorKind.Io ∧
    (RotatingFileSink.log ⟨.All, 10, .opened 8⟩ ⟨false, true⟩ ⟨.Info, 5⟩).sink =
      { (⟨.All, 10, .opened 8⟩ : RotatingFileSink) with file := .closed } ∧
    ((RotatingFileSink.log ⟨.All, 10, .opened 8⟩ ⟨false, true⟩ ⟨.Info, 5⟩).sink.log
        ⟨true, true⟩ ⟨.Warn, 3⟩).result = none ∧
    ((RotatingFileSink.log ⟨.All, 10, .opened 8⟩ ⟨false, true⟩ ⟨.Info, 5⟩).sink.log
        ⟨true, true⟩ ⟨.Warn, 3⟩).sink =
      { (⟨.All, 10, .opened 8⟩ : RotatingFileSink) with file := .opened 3 } :=
  rotation_open_failure_recoverable ⟨.All, 10, .opened 8⟩ ⟨false, true⟩ ⟨true, true⟩
    ⟨.Info, 5⟩ ⟨.Warn, 3⟩ 8 rfl (by decide) rfl rfl rfl

end SpdlogRs
